import Mathlib

/-!
# Verification of the multi-account EKS cluster scheduler

Shallow embedding of the pure decision logic of the scheduler, translated from
the Python sources:

* `app/state/state_manager.py`   — status derivation, idempotency lock
* `app/state/cluster_baseline.py`— baseline save / delete
* `app/discovery.py`             — production guard, label filter
* `app/operations/task_worker.py`— worker start path, batch handling
* `app/operations/operation_router.py` — SNS fan-out
* `app/operations/eks_controller.py`   — ASG name resolution
* `app/schedules/cron_utils.py`  — cron trigger check

DynamoDB tables are modelled as association lists keyed by the primary key of the table; boto3 calls that may raise `ClientError` are modelled as
`Except String` / `Option String` values; Python dicts (tags) are modelled
as insertion-ordered association lists with distinct keys.
-/

namespace EksScheduler

/-! ## `StateManager._derive_status` (state_manager.py, lines 212-241)

`_derive_status` forms the Python `set` of the child statuses and branches
on it.  On lists, `set(statuses) == {"X"}` is "non-empty and every element
equals X", and `"X" in set(statuses)` is list membership. -/

def deriveStatus (statuses : List String) : String :=
  if statuses.isEmpty then "UNKNOWN"
  else if statuses.all (fun s => s == "COMPLETED") then "COMPLETED"
  else if statuses.all (fun s => s == "FAILED") then "FAILED"
  else if statuses.contains "PENDING" || statuses.contains "IN_PROGRESS" then "IN_PROGRESS"
  else if statuses.contains "COMPLETED" && statuses.contains "FAILED" then "PARTIAL_FAILURE"
  else "IN_PROGRESS"

/-- The derivation rules exactly as the specification words them: the
`PARTIAL_FAILURE` clause additionally demands "and nothing else". -/
def deriveStatusSpec (statuses : List String) : String :=
  if statuses.isEmpty then "UNKNOWN"
  else if statuses.all (fun s => s == "COMPLETED") then "COMPLETED"
  else if statuses.all (fun s => s == "FAILED") then "FAILED"
  else if statuses.contains "PENDING" || statuses.contains "IN_PROGRESS" then "IN_PROGRESS"
  else if statuses.contains "COMPLETED" && statuses.contains "FAILED"
      && statuses.all (fun s => s == "COMPLETED" || s == "FAILED") then "PARTIAL_FAILURE"
  else "IN_PROGRESS"

/-- The four child statuses the scheduler ever writes to nodegroup rows. -/
def childStatuses : List String :=
  ["PENDING", "IN_PROGRESS", "COMPLETED", "FAILED"]

/-! ## Discovery: production guard and label filter (discovery.py, lines 139-190)

The `tags` dict of a cluster is modelled as an insertion-ordered association
list with distinct keys.  `_discover_account_clusters` computes
`env_key = next((k for k in tags if k.lower() in ("env", "environment")), None)`
— the FIRST key matching case-insensitively — then lowercases its value. -/

structure DiscCluster where
  clusterName : String
  tags : List (String × String)
  deriving DecidableEq, Repr

/-- Models `str.lower()` of Python on the ASCII range (tag keys and values
are ASCII), as a structural recursion over the characters. -/
def lowerChar (ch : Char) : Char :=
  if 'A' ≤ ch && ch ≤ 'Z' then Char.ofNat (ch.toNat + 32) else ch

def pyLower (s : String) : String :=
  ⟨s.data.map lowerChar⟩

/-- Models `k.lower() in ("env", "environment")`. -/
def envLikeKey (k : String) : Bool :=
  pyLower k == "env" || pyLower k == "environment"

/-- Models `env_tag = tags.get(env_key, "").lower() if env_key else ""` where
`env_key` is the first env-like key in dict order. -/
def envTag (tags : List (String × String)) : String :=
  match tags.find? (fun p => envLikeKey p.1) with
  | some p => pyLower p.2
  | none => ""

/-- Models `env_tag in ("prod", "production")`: the cluster is skipped. -/
def isProdGuarded (tags : List (String × String)) : Bool :=
  envTag tags == "prod" || envTag tags == "production"

/-- Models `_matches_labels`: every filter pair must be present with the exact
value (`tags.get(key) != value` rejects). -/
def matchesLabels (tags labelFilter : List (String × String)) : Bool :=
  labelFilter.all (fun kv => (tags.find? (fun p => p.1 == kv.1)).map Prod.snd == some kv.2)

/-- The per-cluster keep/drop decision of `_discover_account_clusters`:
the production guard runs first (`continue`), then the label filter
(`if label_filter and not _matches_labels(...)`; a `None` filter skips
the label check). -/
def clusterKept (labelFilter : Option (List (String × String))) (c : DiscCluster) : Bool :=
  !isProdGuarded c.tags &&
    (match labelFilter with
     | none => true
     | some f => matchesLabels c.tags f)

/-- The cluster list `_discover_account_clusters` returns, as a function of
the described clusters: exactly those passing both filters, in order. -/
def discoverFilter (labelFilter : Option (List (String × String)))
    (clusters : List DiscCluster) : List DiscCluster :=
  clusters.filter (clusterKept labelFilter)

/-- A cluster carrying `env=dev` before `environment=prod` in dict order. -/
def mixedEnvCluster : DiscCluster :=
  { clusterName := "payments-dev"
    tags := [("env", "dev"), ("environment", "prod")] }

/-! ## `ClusterBaseline` (cluster_baseline.py)

The cluster-state table is keyed by `(cluster_id, nodegroup_name)`.  A
conditional `put_item` with `attribute_not_exists(cluster_id)` succeeds
exactly when no item with that primary key exists; the
`ConditionalCheckFailedException` path returns `False` and leaves the
table untouched. -/

structure BaselineRow where
  desired_size : Int
  min_size : Int
  max_size : Int
  saved_at : String
  version : Nat
  deriving DecidableEq, Repr

/-- The cluster-state DynamoDB table. -/
def BaselineTable := List ((String × String) × BaselineRow)

instance : DecidableEq BaselineTable := inferInstanceAs (DecidableEq (List _))

/-- Models `get_item` on the cluster-state table. -/
def baselineGet (tbl : BaselineTable) (cluster_id nodegroup_name : String) :
    Option BaselineRow :=
  (tbl.find? (fun e => e.1 == (cluster_id, nodegroup_name))).map Prod.snd

/-- Models `ClusterBaseline.save_baseline` (lines 28-91): conditional put of
`{desired, min, max, saved_at, version=1}`; returns the Python result
paired with the table after the call. -/
def save_baseline (tbl : BaselineTable) (cluster_id nodegroup_name : String)
    (desired_size min_size max_size : Int) (now : String) :
    Bool × BaselineTable :=
  match tbl.find? (fun e => e.1 == (cluster_id, nodegroup_name)) with
  | some _ => (false, tbl)
  | none =>
      (true,
        ((cluster_id, nodegroup_name),
          { desired_size := desired_size
            min_size := min_size
            max_size := max_size
            saved_at := now
            version := 1 }) :: tbl)

/-- The fallible `delete_item` call inside `delete_baseline`: the injected
`clientError` models a raised `botocore ClientError`. -/
def baselineDeleteItem (tbl : BaselineTable) (cluster_id nodegroup_name : String)
    (clientError : Option String) : Except String BaselineTable :=
  match clientError with
  | some e => .error e
  | none => .ok (tbl.filter (fun e => !(e.1 == (cluster_id, nodegroup_name))))

/-- Models `ClusterBaseline.delete_baseline` (lines 114-146): the `ClientError`
is caught and logged; the function always returns (`None` in Python),
yielding the table as the client call left it. -/
def delete_baseline (tbl : BaselineTable) (cluster_id nodegroup_name : String)
    (clientError : Option String) : BaselineTable :=
  match baselineDeleteItem tbl cluster_id nodegroup_name clientError with
  | .error _ => tbl
  | .ok t => t

/-! ## `StateManager.acquire_idempotency_lock` (state_manager.py, lines 328-359)

The operations table rows under `LOCK#<key>` are modelled as an
association list from the lock key to its row.  The conditional put
succeeds iff `attribute_not_exists(PK) OR expires_at < :now`; a
`put_item` replaces the whole item. -/

structure LockRow where
  acquired_at : String
  expires_at : Nat
  deriving DecidableEq, Repr

def LockTable := List (String × LockRow)

instance : DecidableEq LockTable := inferInstanceAs (DecidableEq (List _))

def lockGet (tbl : LockTable) (lock_key : String) : Option LockRow :=
  (tbl.find? (fun e => e.1 == lock_key)).map Prod.snd

/-- Models `acquire_idempotency_lock(lock_key, ttl_seconds)` called when the
clock reads `now` (epoch seconds, `nowIso` its ISO rendering): returns
the Python boolean and the table after the call. -/
def acquire_idempotency_lock (tbl : LockTable) (lock_key : String)
    (ttl_seconds now : Nat) (nowIso : String) : Bool × LockTable :=
  let conditionHolds :=
    match lockGet tbl lock_key with
    | none => true
    | some row => row.expires_at < now
  if conditionHolds then
    (true,
      (lock_key, { acquired_at := nowIso, expires_at := now + ttl_seconds }) ::
        tbl.filter (fun e => !(e.1 == lock_key)))
  else
    (false, tbl)

/-! ## Task worker (task_worker.py)

`_process_message` iterates over the target nodegroups; every action on a
nodegroup is wrapped in a `try` whose `except` writes a `FAILED` status
row with `error_message=str(e)` and moves on.  Exceptions raised before
that loop (discovery, cluster lookup) escape `_process_message` and are
caught by `handler`, which appends the `messageId` of the record to
`batchItemFailures`. -/

/-- A nodegroup row written by `state_manager.update_nodegroup_status`. -/
structure StatusUpdate where
  ngId : String
  status : String
  errorMessage : Option String
  deriving DecidableEq, Repr

/-- A nodegroup as seen by the start path of the worker (fields of the
discovered `node_groups` entry the worker reads). -/
structure NgInfo where
  name : String
  min_size : Int
  max_size : Int
  deriving DecidableEq, Repr

/-- The three sizes handed to `Controller.start_nodegroup` in the
`action == "start"` branch of the worker (task_worker.py, lines 106-132):
`(target_size, min_size, max_size)`. -/
def startSizes (saved : Option BaselineRow) (ng : NgInfo) : Int × Int × Int :=
  match saved with
  | none => (ng.min_size, ng.min_size, ng.max_size)
  | some b => (b.desired_size, b.min_size, b.max_size)

/-- The start branch around the controller call (lines 123-142): on
success the row goes to `COMPLETED` and only then is the baseline
deleted; a raised exception is caught by the per-nodegroup `except` and
the row goes to `FAILED` with `error_message=str(e)`. -/
def startBranch (tbl : BaselineTable) (cluster_id : String) (ng : NgInfo)
    (startResult : Except String Unit) (deleteClientError : Option String) :
    StatusUpdate × BaselineTable :=
  match startResult with
  | .error e => ({ ngId := cluster_id ++ ":" ++ ng.name, status := "FAILED",
                   errorMessage := some e }, tbl)
  | .ok _ => ({ ngId := cluster_id ++ ":" ++ ng.name, status := "COMPLETED",
                errorMessage := none },
              delete_baseline tbl cluster_id ng.name deleteClientError)

/-- A parsed worker message: `fatalError` models an exception raised
before the per-nodegroup loop (e.g. `discover_clusters()` failing),
`clusterFound` the cluster lookup, and `ngOutcomes` the result of the
action attempted on each targeted nodegroup (`.error e` models a raised
exception whose `str(e)` is `e`). -/
structure WorkerMsg where
  clusterFound : Bool
  fatalError : Option String
  ngOutcomes : List (String × Except String Unit)

/-- Models `_process_message` (lines 23-186): returns the status rows it writes,
or `.error` when an exception escapes it (re-raised by the outer
`except`).  Per-nodegroup exceptions are caught in the loop and become
`FAILED` rows. -/
def processMessage (m : WorkerMsg) : Except String (List StatusUpdate) :=
  match m.fatalError with
  | some e => .error e
  | none =>
      if !m.clusterFound then .ok []
      else .ok (m.ngOutcomes.map (fun t =>
        match t.2 with
        | .ok _ => { ngId := t.1, status := "COMPLETED", errorMessage := none }
        | .error e => { ngId := t.1, status := "FAILED", errorMessage := some e }))

/-- An SQS record: `malformed` models a body `json.loads` rejects. -/
inductive RecordBody
  | malformed
  | wellFormed (m : WorkerMsg)

structure SqsRecord where
  messageId : String
  body : RecordBody

/-- The status rows record `r` causes to be written. -/
def recordUpdates (r : SqsRecord) : List StatusUpdate :=
  match r.body with
  | .malformed => []
  | .wellFormed m =>
      match processMessage m with
      | .error _ => []
      | .ok us => us

/-- Does processing record `r` raise out of the per-record `try`? -/
def recordFails (r : SqsRecord) : Bool :=
  match r.body with
  | .malformed => true
  | .wellFormed m =>
      match processMessage m with
      | .error _ => true
      | .ok _ => false

/-- The Lambda `handler` (lines 189-229): processes every record, and
collects `batchItemFailures` from records whose processing raised.
Returned as (status rows written, failed `messageId`s). -/
def handler (records : List SqsRecord) : List StatusUpdate × List String :=
  records.foldl
    (fun acc r =>
      match r.body with
      | .malformed => (acc.1, acc.2 ++ [r.messageId])
      | .wellFormed m =>
          match processMessage m with
          | .error _ => (acc.1, acc.2 ++ [r.messageId])
          | .ok us => (acc.1 ++ us, acc.2))
    ([], [])

/-! ## `fan_out_operation` (operation_router.py, lines 18-98)

One SNS message per nodegroup, published sequentially; there is no
`try`/`except` around `sns_client.publish`, so a raised publish error
propagates out of the function.  The model returns
(raised error if any, messages actually published, counts returned to the
caller — `none` when the function raised instead of returning). -/

structure PubMsg where
  cluster_name : String
  nodegroup_name : String
  deriving DecidableEq, Repr

/-- The messages `fan_out_operation` attempts, in publication order, from
clusters given as `(cluster_name, node_group names)`. -/
def fanOutMessages (clusters : List (String × List String)) : List PubMsg :=
  clusters.flatMap (fun c => c.2.map (fun ng => ⟨c.1, ng⟩))

/-- Sequential publication: on the first failing publish, stop; no later
message is published. -/
def publishSeq (publish : PubMsg → Except String Unit) :
    List PubMsg → Option String × List PubMsg
  | [] => (none, [])
  | m :: rest =>
      match publish m with
      | .error e => (some e, [])
      | .ok _ =>
          let r := publishSeq publish rest
          (r.1, m :: r.2)

def fan_out_operation (publish : PubMsg → Except String Unit)
    (clusters : List (String × List String)) :
    Option String × List PubMsg × Option (Nat × Nat) :=
  let msgs := fanOutMessages clusters
  match publishSeq publish msgs with
  | (some e, published) => (some e, published, none)
  | (none, published) => (none, published, some (clusters.length, msgs.length))

/-! ## `EKSController._find_asg_name` (eks_controller.py, lines 268-319)

The paginated scan is modelled as the flat list of ASGs in the region, in
scan order.  `asg_tags.get(k, "")` is `tagGet`; the Python substring test
`nodegroup_name in asg["AutoScalingGroupName"]` is `pySubstr`. -/

/-- Models `tags.get(k, "")` on a Python dict modelled as an association list. -/
def tagGet (tags : List (String × String)) (k : String) : String :=
  ((tags.find? (fun p => p.1 == k)).map Prod.snd).getD ""

structure AsgInfo where
  asgName : String
  tags : List (String × String)
  deriving DecidableEq, Repr

/-- Does `pat` start the character list `s`? -/
def charsStart : List Char → List Char → Bool
  | [], _ => true
  | _ :: _, [] => false
  | p :: ps, c :: cs => p == c && charsStart ps cs

/-- Does `pat` occur as a contiguous run inside `s`? -/
def charsOccur (pat : List Char) : List Char → Bool
  | [] => pat.isEmpty
  | c :: t => charsStart pat (c :: t) || charsOccur pat t

/-- Models the Python substring test `pat in s`. -/
def pySubstr (pat s : String) : Bool :=
  charsOccur pat.data s.data

/-- The ASG matches the cluster: `eks:cluster-name` tag equals the
cluster name, or the `kubernetes.io/cluster/<name>` tag key is present
(lines 298-304). -/
def clusterMatch (cluster_name : String) (asg : AsgInfo) : Bool :=
  tagGet asg.tags "eks:cluster-name" == cluster_name
    || (asg.tags.find? (fun p => p.1 == "kubernetes.io/cluster/" ++ cluster_name)).isSome

/-- Models `_find_asg_name` (lines 290-319), literally: for each ASG in scan
order, skip it unless it matches the cluster; then return its name from
whichever of the three inner branches fires (exact `eks:nodegroup-name`
tag, substring of the ASG name, or the unconditional fallback). -/
def find_asg_name (cluster_name nodegroup_name : String) :
    List AsgInfo → Option String
  | [] => none
  | asg :: rest =>
      if clusterMatch cluster_name asg then
        let tagNodegroup := tagGet asg.tags "eks:nodegroup-name"
        if !(tagNodegroup == "") && tagNodegroup == nodegroup_name then some asg.asgName
        else if pySubstr nodegroup_name asg.asgName then some asg.asgName
        else some asg.asgName
      else find_asg_name cluster_name nodegroup_name rest

/-! ## `is_triggered` (cron_utils.py, lines 31-66)

Instants are seconds since an epoch (`Nat`); an IANA timezone is modelled
by its UTC offset in whole minutes (`offsetMinutes : Int`), so the local
wall-clock minute containing instant `t` has index `t / 60 + offset`.
`datetime.replace(second=0, microsecond=0)` truncates the instant to its
minute; `astimezone` changes only the representation, never the instant,
and with whole-minute offsets truncation commutes with conversion.
`croniter(expr, base).get_prev(datetime)` returns the latest trigger
instant strictly before `base`; triggers sit at second 0 of the local
minutes the expression matches, given by the `firesAt`
predicate on local minute indices. -/

structure CronSchedule where
  /-- Models `croniter.is_valid(expression)`. -/
  valid : Bool
  /-- Does the 5-field expression match the local wall-clock minute with
  this index? -/
  firesAt : Int → Bool

/-- Models `now.replace(second=0, microsecond=0)` as an instant. -/
def startOfMinute (t : Nat) : Nat := 60 * (t / 60)

/-- The index of the local wall-clock minute containing instant `t`. -/
def localMinute (offsetMinutes : Int) (t : Nat) : Int :=
  ((t / 60 : Nat) : Int) + offsetMinutes

/-- Models `croniter(expr, base).get_prev(datetime)`: the latest instant `s < base`
at second 0 of a local minute the expression matches. -/
def getPrevTrigger (fires : Int → Bool) (offsetMinutes : Int) : Nat → Option Nat
  | 0 => none
  | b + 1 =>
      if b % 60 == 0 && fires (localMinute offsetMinutes b) then some b
      else getPrevTrigger fires offsetMinutes b

/-- Models `is_triggered` (lines 31-66): invalid expressions return `False`;
otherwise the reference is the start of the current minute and the check
is `croniter(expr, local_ref + 1s).get_prev(datetime) == local_ref`. -/
def is_triggered (c : CronSchedule) (offsetMinutes : Int) (check_time : Nat) : Bool :=
  if !c.valid then false
  else
    let referenceTime := startOfMinute check_time
    match getPrevTrigger c.firesAt offsetMinutes (referenceTime + 1) with
    | some p => p == referenceTime
    | none => false

/-! ## Concrete instances used in the theorems below -/

/-- A nodegroup observed with `min_size = 1`, `max_size = 5`. -/
def fallbackNg : NgInfo :=
  { name := "web", min_size := 1, max_size := 5 }

/-- A record whose only nodegroup action raises `boom`. -/
def failingNgRecord : SqsRecord :=
  { messageId := "m1"
    body := .wellFormed
      { clusterFound := true
        fatalError := none
        ngOutcomes := [("ng1", .error "boom")] } }

/-- Did `sns_client.publish` succeed on this message? -/
def pubOk (publish : PubMsg → Except String Unit) (m : PubMsg) : Bool :=
  match publish m with
  | .ok _ => true
  | .error _ => false

/-- An SNS client that raises on the message of the first nodegroup. -/
def failingPublish : PubMsg → Except String Unit :=
  fun m => if m.nodegroup_name == "ng-a" then .error "sns down" else .ok ()

/-- The schedule `*/2 * * * *` over minute indices: fires on even local
minutes. -/
def sampleCron : CronSchedule :=
  { valid := true, firesAt := fun m => m % 2 == 0 }

/-- A cluster-matched ASG whose `eks:nodegroup-name` tag names a
different nodegroup, scanned first. -/
def asgOtherNg : AsgInfo :=
  { asgName := "asg-a"
    tags := [("eks:cluster-name", "c1"), ("eks:nodegroup-name", "other")] }

/-- A cluster-matched ASG whose `eks:nodegroup-name` tag equals the
requested nodegroup `web`, scanned second. -/
def asgExactNg : AsgInfo :=
  { asgName := "asg-b"
    tags := [("eks:cluster-name", "c1"), ("eks:nodegroup-name", "web")] }

/-! # Theorems -/

/-- C1: over child statuses drawn from {PENDING, IN_PROGRESS, COMPLETED,
FAILED}, `_derive_status` computes exactly the rules of the specification:
UNKNOWN on empty, COMPLETED / FAILED on the pure sets, IN_PROGRESS when
PENDING or IN_PROGRESS occurs, PARTIAL_FAILURE when COMPLETED and FAILED
are both present and nothing else, IN_PROGRESS otherwise. -/
theorem derive_status_matches_spec (statuses : List String)
    (h : ∀ s ∈ statuses, s ∈ childStatuses) :
    deriveStatus statuses = deriveStatusSpec statuses := by
  by_cases h1 : statuses.isEmpty
  · simp [deriveStatus, deriveStatusSpec, h1]
  · by_cases h4 : ("PENDING" ∈ statuses ∨ "IN_PROGRESS" ∈ statuses)
    · simp [deriveStatus, deriveStatusSpec, h1, h4]
    · have hall : ∀ x ∈ statuses, x = "COMPLETED" ∨ x = "FAILED" := by
        intro s hs
        have hmem := h s hs
        simp only [childStatuses, List.mem_cons, List.not_mem_nil, or_false] at hmem
        push_neg at h4
        rcases hmem with rfl | rfl | rfl | rfl
        · exact absurd hs h4.1
        · exact absurd hs h4.2
        · exact Or.inl rfl
        · exact Or.inr rfl
      simp [deriveStatus, deriveStatusSpec, h1, h4]
      simp only [and_iff_left hall]

/-- Witness for C1 at a concrete mixed list. -/
theorem derive_status_matches_spec_witness :
    (∀ s ∈ (["COMPLETED", "FAILED"] : List String), s ∈ childStatuses)
      ∧ deriveStatus ["COMPLETED", "FAILED"] = deriveStatusSpec ["COMPLETED", "FAILED"] :=
  ⟨by decide, derive_status_matches_spec ["COMPLETED", "FAILED"] (by decide)⟩

/-- C2 counterexample: `mixedEnvCluster` carries the tag
`environment=prod` (an env-like key with a prod value, both already
lowercase), yet discovery returns it, because the guard inspects only the
first env-like key in dict order (`env=dev`). -/
theorem prod_guard_counterexample :
    ("environment", "prod") ∈ mixedEnvCluster.tags
      ∧ envLikeKey "environment" = true
      ∧ discoverFilter none [mixedEnvCluster] = [mixedEnvCluster] := by
  refine ⟨by decide, by decide, ?_⟩
  rfl

/-- C2 amended: the guard is keyed on the FIRST tag key (in dict
insertion order) matching `env`/`environment` case-insensitively; a
cluster whose first such key has value `prod`/`production`
(case-insensitively) never appears in the discovery output, for every label
filter. -/
theorem prod_guard_drops_first_key_prod
    (labelFilter : Option (List (String × String)))
    (clusters : List DiscCluster) (c : DiscCluster)
    (hguard : isProdGuarded c.tags = true) :
    c ∉ discoverFilter labelFilter clusters := by
  intro hmem
  have hkept := List.of_mem_filter hmem
  simp [clusterKept, hguard] at hkept

/-- Witness for the amended C2 at a concrete production-tagged cluster. -/
theorem prod_guard_drops_first_key_prod_witness :
    isProdGuarded [("Env", "Prod")] = true
      ∧ ({ clusterName := "core", tags := [("Env", "Prod")] } : DiscCluster)
          ∉ discoverFilter none [{ clusterName := "core", tags := [("Env", "Prod")] }] :=
  ⟨by decide,
    prod_guard_drops_first_key_prod none _ _ (by decide)⟩

/-- C3: `save_baseline` writes `{desired, min, max, saved_at, version=1}`
only when no row exists for `(cluster_id, nodegroup_name)` and returns
true; on an existing row it returns false and leaves the table unchanged,
so a second save with different sizes leaves the captured sizes intact. -/
theorem save_baseline_write_once
    (tbl : BaselineTable) (cid ng : String) (d mi ma : Int) (now : String)
    (d' mi' ma' : Int) (now' : String) :
    (∀ r, baselineGet tbl cid ng = some r →
        save_baseline tbl cid ng d mi ma now = (false, tbl))
    ∧ (baselineGet tbl cid ng = none →
        (save_baseline tbl cid ng d mi ma now).1 = true
        ∧ baselineGet (save_baseline tbl cid ng d mi ma now).2 cid ng
            = some { desired_size := d, min_size := mi, max_size := ma,
                     saved_at := now, version := 1 }
        ∧ save_baseline (save_baseline tbl cid ng d mi ma now).2 cid ng d' mi' ma' now'
            = (false, (save_baseline tbl cid ng d mi ma now).2)) := by
  constructor
  · intro r hr
    cases hfind : tbl.find? (fun e => e.1 == (cid, ng)) with
    | none => simp [baselineGet, hfind] at hr
    | some p => simp [save_baseline, hfind]
  · intro habs
    have hfind : tbl.find? (fun e => e.1 == (cid, ng)) = none := by
      cases hfind : tbl.find? (fun e => e.1 == (cid, ng)) with
      | none => rfl
      | some p => simp [baselineGet, hfind] at habs
    refine ⟨by simp [save_baseline, hfind], ?_, ?_⟩
    · simp [save_baseline, hfind, baselineGet]
    · simp [save_baseline, hfind]

/-- Witness for C3: fresh key, then an overwrite attempt with other sizes. -/
theorem save_baseline_write_once_witness :
    baselineGet [] "acc:eu:c1" "web" = none
      ∧ ((save_baseline [] "acc:eu:c1" "web" 3 1 5 "t0").1 = true
        ∧ baselineGet (save_baseline [] "acc:eu:c1" "web" 3 1 5 "t0").2 "acc:eu:c1" "web"
            = some { desired_size := 3, min_size := 1, max_size := 5,
                     saved_at := "t0", version := 1 }
        ∧ save_baseline (save_baseline [] "acc:eu:c1" "web" 3 1 5 "t0").2
              "acc:eu:c1" "web" 9 9 9 "t1"
            = (false, (save_baseline [] "acc:eu:c1" "web" 3 1 5 "t0").2)) :=
  ⟨rfl, (save_baseline_write_once [] "acc:eu:c1" "web" 3 1 5 "t0" 9 9 9 "t1").2 rfl⟩

/-- C4: `acquire_idempotency_lock` returns true exactly when the row is
absent or expired (`expires_at < now`), writing `expires_at = now + ttl`;
on the conditional-check failure it returns false and leaves the table
unchanged; hence of two acquires of the same key within the TTL window of
the first
window, at most one returns true. -/
theorem acquire_lock_spec (tbl : LockTable) (key : String)
    (ttl now : Nat) (iso : String) :
    ((acquire_idempotency_lock tbl key ttl now iso).1 = true ↔
        lockGet tbl key = none ∨ ∃ r, lockGet tbl key = some r ∧ r.expires_at < now)
    ∧ ((acquire_idempotency_lock tbl key ttl now iso).1 = true →
        lockGet (acquire_idempotency_lock tbl key ttl now iso).2 key
          = some { acquired_at := iso, expires_at := now + ttl })
    ∧ ((acquire_idempotency_lock tbl key ttl now iso).1 = false →
        (acquire_idempotency_lock tbl key ttl now iso).2 = tbl)
    ∧ (∀ now2 ttl2 iso2, now2 < now + ttl →
        ¬((acquire_idempotency_lock tbl key ttl now iso).1 = true
          ∧ (acquire_idempotency_lock
              (acquire_idempotency_lock tbl key ttl now iso).2 key ttl2 now2 iso2).1
            = true)) := by
  have hget2 : ∀ iso2,
      lockGet ((key, { acquired_at := iso2, expires_at := now + ttl }) ::
          tbl.filter (fun e => !(e.1 == key))) key
        = some { acquired_at := iso2, expires_at := now + ttl } := by
    intro iso2
    simp [lockGet]
  refine ⟨?_, ?_, ?_, ?_⟩
  · cases hrow : lockGet tbl key with
    | none => simp [acquire_idempotency_lock, hrow]
    | some r =>
        by_cases hexp : r.expires_at < now
        · simp [acquire_idempotency_lock, hrow, hexp]
        · simp [acquire_idempotency_lock, hrow, hexp]
  · intro htrue
    cases hrow : lockGet tbl key with
    | none => simpa [acquire_idempotency_lock, hrow] using hget2 iso
    | some r =>
        by_cases hexp : r.expires_at < now
        · simpa [acquire_idempotency_lock, hrow, hexp] using hget2 iso
        · simp [acquire_idempotency_lock, hrow, hexp] at htrue
  · intro hfalse
    cases hrow : lockGet tbl key with
    | none => simp [acquire_idempotency_lock, hrow] at hfalse
    | some r =>
        by_cases hexp : r.expires_at < now
        · simp [acquire_idempotency_lock, hrow, hexp] at hfalse
        · simp [acquire_idempotency_lock, hrow, hexp]
  · rintro now2 ttl2 iso2 hwin ⟨h1, h2⟩
    set T := (acquire_idempotency_lock tbl key ttl now iso).2 with hT
    have htbl2 :
        lockGet T key
          = some { acquired_at := iso, expires_at := now + ttl } := by
      rw [hT]
      cases hrow : lockGet tbl key with
      | none => simpa [acquire_idempotency_lock, hrow] using hget2 iso
      | some r =>
          by_cases hexp : r.expires_at < now
          · simpa [acquire_idempotency_lock, hrow, hexp] using hget2 iso
          · simp [acquire_idempotency_lock, hrow, hexp] at h1
    have : ¬((now + ttl) < now2) := by omega
    simp [acquire_idempotency_lock, htbl2, this] at h2

/-- Witness for C4: a fresh lock acquired at `now = 1000` with TTL 120
blocks a second acquire at `now = 1060`. -/
theorem acquire_lock_spec_witness :
    (1060 < 1000 + 120)
      ∧ ¬((acquire_idempotency_lock [] "op:stop" 120 1000 "t0").1 = true
          ∧ (acquire_idempotency_lock
              (acquire_idempotency_lock [] "op:stop" 120 1000 "t0").2
              "op:stop" 120 1060 "t1").1 = true) :=
  ⟨by decide,
    (acquire_lock_spec [] "op:stop" 120 1000 "t0").2.2.2 1060 120 "t1" (by decide)⟩


/-- C5 counterexample: with no baseline, the worker passes
`(min_size, min_size, max_size) = (1, 1, 5)` to `start_nodegroup`, not
`min_size` for all three sizes as the claim states. -/
theorem start_fallback_counterexample :
    startSizes none fallbackNg = (1, 1, 5)
      ∧ startSizes none fallbackNg
          ≠ (fallbackNg.min_size, fallbackNg.min_size, fallbackNg.min_size) := by
  constructor
  · rfl
  · decide

/-- C5 amended: when `get_baseline` returns no row, the worker falls back
to the current `min_size` for desired and min but keeps the current
`max_size` for max; when a baseline exists, its desired/min/max are
applied. -/
theorem start_fallback_sizes :
    ∀ (ng : NgInfo) (b : BaselineRow),
      startSizes none ng = (ng.min_size, ng.min_size, ng.max_size)
      ∧ startSizes (some b) ng = (b.desired_size, b.min_size, b.max_size) :=
  fun _ _ => ⟨rfl, rfl⟩


/-- C6 counterexample: the nodegroup exception inside `failingNgRecord`
produces a `FAILED` row with `error_message = "boom"`, yet
`batchItemFailures` comes back empty — the messageId of the failing
message is NOT reported, so the message is not redelivered. -/
theorem worker_batch_counterexample :
    handler [failingNgRecord]
        = ([{ ngId := "ng1", status := "FAILED", errorMessage := some "boom" }], [])
      ∧ failingNgRecord.messageId ∉ (handler [failingNgRecord]).2 := by
  constructor
  · rfl
  · intro hmem
    simp [handler, failingNgRecord, processMessage] at hmem

theorem handler_foldl_aux (records : List SqsRecord) :
    ∀ (us : List StatusUpdate) (fs : List String),
      records.foldl
        (fun acc r =>
          match r.body with
          | .malformed => (acc.1, acc.2 ++ [r.messageId])
          | .wellFormed m =>
              match processMessage m with
              | .error _ => (acc.1, acc.2 ++ [r.messageId])
              | .ok us => (acc.1 ++ us, acc.2))
        (us, fs)
      = (us ++ (records.map recordUpdates).flatten,
         fs ++ (records.filter recordFails).map SqsRecord.messageId) := by
  induction records with
  | nil => simp
  | cons r rest ih =>
      intro us fs
      cases hb : r.body with
      | malformed =>
          simp [List.foldl_cons, hb, ih, recordUpdates, recordFails]
      | wellFormed m =>
          cases hp : processMessage m with
          | error e =>
              simp [List.foldl_cons, hb, hp, ih, recordUpdates, recordFails]
          | ok us2 =>
              simp [List.foldl_cons, hb, hp, ih, recordUpdates, recordFails]

/-- C6 amended: per-nodegroup exceptions are recorded as `FAILED` rows
with `error_message = str(e)` but are swallowed inside `_process_message`,
so they do not enter `batchItemFailures`; `batchItemFailures` holds
exactly the messageIds of records whose processing itself raised
(malformed body, or a fatal error before the per-nodegroup loop). -/
theorem worker_batch_failure_reporting :
    ∀ records : List SqsRecord,
      handler records
        = ((records.map recordUpdates).flatten,
           (records.filter recordFails).map SqsRecord.messageId)
      ∧ ∀ (m : WorkerMsg), m.fatalError = none → m.clusterFound = true →
          processMessage m
            = .ok (m.ngOutcomes.map (fun t =>
                match t.2 with
                | .ok _ => { ngId := t.1, status := "COMPLETED", errorMessage := none }
                | .error e => { ngId := t.1, status := "FAILED", errorMessage := some e })) := by
  intro records
  constructor
  · simpa using handler_foldl_aux records [] []
  · intro m h1 h2
    simp [processMessage, h1, h2]

/-- Witness for the amended C6: the failing-nodegroup message yields a
`FAILED` row and an empty failure list. -/
theorem worker_batch_failure_reporting_witness :
    handler [failingNgRecord]
        = ((([failingNgRecord].map recordUpdates)).flatten,
           (([failingNgRecord].filter recordFails)).map SqsRecord.messageId)
      ∧ processMessage
          { clusterFound := true, fatalError := none,
            ngOutcomes := [("ng1", .error "boom")] }
          = .ok [{ ngId := "ng1", status := "FAILED", errorMessage := some "boom" }] :=
  ⟨(worker_batch_failure_reporting [failingNgRecord]).1,
    (worker_batch_failure_reporting []).2
      { clusterFound := true, fatalError := none,
        ngOutcomes := [("ng1", .error "boom")] } rfl rfl⟩


theorem publishSeq_spec (publish : PubMsg → Except String Unit) :
    ∀ msgs : List PubMsg,
      (publishSeq publish msgs).2 = msgs.takeWhile (pubOk publish)
      ∧ ((publishSeq publish msgs).1 = none ↔ ∀ m ∈ msgs, pubOk publish m = true) := by
  intro msgs
  induction msgs with
  | nil => simp [publishSeq]
  | cons m rest ih =>
      cases hp : publish m with
      | error e =>
          have hok : pubOk publish m = false := by simp [pubOk, hp]
          simp [publishSeq, hp, List.takeWhile_cons, hok]
      | ok u =>
          have hok : pubOk publish m = true := by simp [pubOk, hp]
          simp [publishSeq, hp, List.takeWhile_cons, hok, ih]


/-- C7 counterexample: publishing the first of two sibling nodegroup
messages raises; the exception propagates, the sibling `ng-b` message —
which would have succeeded — is never published, and the caller receives
no counts. -/
theorem fan_out_counterexample :
    fan_out_operation failingPublish [("c1", ["ng-a", "ng-b"])]
        = (some "sns down", [], none)
      ∧ failingPublish { cluster_name := "c1", nodegroup_name := "ng-b" } = .ok ()
      ∧ ({ cluster_name := "c1", nodegroup_name := "ng-b" } : PubMsg)
          ∉ (fan_out_operation failingPublish [("c1", ["ng-a", "ng-b"])]).2.1 := by
  refine ⟨rfl, rfl, ?_⟩
  intro hmem
  simp [fan_out_operation, fanOutMessages, publishSeq, failingPublish] at hmem

/-- C7 amended: `fan_out_operation` publishes one message per nodegroup
sequentially; the first publish failure propagates, aborting the
remaining sibling publications and returning no counts to the caller;
only when every publish succeeds does the caller receive the totals
`(clusters, nodegroups)`. -/
theorem fan_out_abort_on_failure
    (publish : PubMsg → Except String Unit)
    (clusters : List (String × List String)) :
    ((∀ m ∈ fanOutMessages clusters, pubOk publish m = true) →
        fan_out_operation publish clusters
          = (none, fanOutMessages clusters,
             some (clusters.length, (fanOutMessages clusters).length)))
    ∧ (fan_out_operation publish clusters).2.1
        = (fanOutMessages clusters).takeWhile (pubOk publish)
    ∧ (∀ e, (fan_out_operation publish clusters).1 = some e →
        (fan_out_operation publish clusters).2.2 = none) := by
  have hseq := publishSeq_spec publish (fanOutMessages clusters)
  refine ⟨?_, ?_, ?_⟩
  · intro hall
    have hnone : (publishSeq publish (fanOutMessages clusters)).1 = none :=
      hseq.2.mpr hall
    have htake : (publishSeq publish (fanOutMessages clusters)).2
        = fanOutMessages clusters := by
      rw [hseq.1]
      exact List.takeWhile_eq_self_iff.mpr hall
    simp only [fan_out_operation]
    cases hps : publishSeq publish (fanOutMessages clusters) with
    | mk err published =>
        rw [hps] at hnone htake
        simp at hnone htake
        simp [hnone, htake]
  · simp only [fan_out_operation]
    cases hps : publishSeq publish (fanOutMessages clusters) with
    | mk err published =>
        have h2 := hseq.1
        rw [hps] at h2
        cases err with
        | none => simpa using h2
        | some e => simpa using h2
  · intro e he
    simp only [fan_out_operation] at he ⊢
    cases hps : publishSeq publish (fanOutMessages clusters) with
    | mk err published =>
        rw [hps] at he
        cases err with
        | none => simp at he
        | some e2 => rfl

/-- Witness for C7 amended: with a publish that always succeeds, two
clusters with three nodegroups yield counts `(2, 3)`. -/
theorem fan_out_abort_on_failure_witness :
    (∀ m ∈ fanOutMessages [("c1", ["a", "b"]), ("c2", ["c"])],
        pubOk (fun _ => .ok ()) m = true)
      ∧ fan_out_operation (fun _ => .ok ()) [("c1", ["a", "b"]), ("c2", ["c"])]
          = (none, fanOutMessages [("c1", ["a", "b"]), ("c2", ["c"])], some (2, 3)) :=
  ⟨by decide,
    (fan_out_abort_on_failure (fun _ => .ok ()) [("c1", ["a", "b"]), ("c2", ["c"])]).1
      (by decide)⟩

theorem getPrevTrigger_lt (fires : Int → Bool) (offsetMinutes : Int) :
    ∀ b p, getPrevTrigger fires offsetMinutes b = some p → p < b := by
  intro b
  induction b with
  | zero => intro p hp; simp [getPrevTrigger] at hp
  | succ n ih =>
      intro p hp
      rw [getPrevTrigger] at hp
      by_cases hc : (n % 60 == 0 && fires (localMinute offsetMinutes n)) = true
      · rw [if_pos hc] at hp
        cases hp
        omega
      · rw [if_neg hc] at hp
        have := ih p hp
        omega

/-- C8: for a valid cron expression (in any whole-minute UTC offset, at
any instant), `is_triggered` is true iff the previous scheduled time
computed from one second past the start of the current minute equals the
start of that minute — equivalently, iff the expression matches the
current local minute: an exact-to-the-minute check, not a
"next trigger within a minute" approximation. -/
theorem cron_exact_minute (c : CronSchedule) (offsetMinutes : Int)
    (check_time : Nat) (hv : c.valid = true) :
    (is_triggered c offsetMinutes check_time = true ↔
        getPrevTrigger c.firesAt offsetMinutes (startOfMinute check_time + 1)
          = some (startOfMinute check_time))
    ∧ (is_triggered c offsetMinutes check_time = true ↔
        c.firesAt (localMinute offsetMinutes check_time) = true) := by
  have hmod : startOfMinute check_time % 60 = 0 := by
    simp [startOfMinute, Nat.mul_mod_right]
  have hdiv : localMinute offsetMinutes (startOfMinute check_time)
      = localMinute offsetMinutes check_time := by
    have h60 : (0 : Nat) < 60 := by norm_num
    simp [localMinute, startOfMinute, Nat.mul_div_cancel_left _ h60]
  by_cases hf : c.firesAt (localMinute offsetMinutes check_time) = true
  · have hprev : getPrevTrigger c.firesAt offsetMinutes (startOfMinute check_time + 1)
        = some (startOfMinute check_time) := by
      rw [getPrevTrigger]
      rw [if_pos]
      rw [hmod, hdiv]
      simp [hf]
    constructor
    · simp [is_triggered, hv, hprev]
    · simp [is_triggered, hv, hprev, hf]
  · have hprev : getPrevTrigger c.firesAt offsetMinutes (startOfMinute check_time + 1)
        = getPrevTrigger c.firesAt offsetMinutes (startOfMinute check_time) := by
      rw [getPrevTrigger]
      rw [if_neg]
      rw [hmod, hdiv]
      simp [hf]
    have hne : ∀ p,
        getPrevTrigger c.firesAt offsetMinutes (startOfMinute check_time) = some p →
          p ≠ startOfMinute check_time := by
      intro p hp
      have := getPrevTrigger_lt c.firesAt offsetMinutes _ p hp
      omega
    have hfalse : is_triggered c offsetMinutes check_time = false := by
      simp only [is_triggered, hv, Bool.not_true, Bool.false_eq_true, if_false, hprev]
      cases hp : getPrevTrigger c.firesAt offsetMinutes (startOfMinute check_time) with
      | none => rfl
      | some p => simp [hne p hp]
    refine ⟨?_, ?_⟩
    · rw [hfalse, hprev]
      constructor
      · intro hcontra
        exact absurd hcontra (by simp)
      · intro hcontra
        exact absurd (hne _ hcontra) (by simp)
    · rw [hfalse]
      simp [hf]


/-- Witness for C8 at minute index 2 (instant 125s, offset 0). -/
theorem cron_exact_minute_witness :
    sampleCron.valid = true
      ∧ ((is_triggered sampleCron 0 125 = true ↔
            getPrevTrigger sampleCron.firesAt 0 (startOfMinute 125 + 1)
              = some (startOfMinute 125))
        ∧ (is_triggered sampleCron 0 125 = true ↔
            sampleCron.firesAt (localMinute 0 125) = true)) :=
  ⟨rfl, cron_exact_minute sampleCron 0 125 rfl⟩

theorem find_asg_name_eq_first_match (cluster_name nodegroup_name : String) :
    ∀ asgs : List AsgInfo,
      find_asg_name cluster_name nodegroup_name asgs
        = (asgs.find? (clusterMatch cluster_name)).map AsgInfo.asgName := by
  intro asgs
  induction asgs with
  | nil => rfl
  | cons asg rest ih =>
      by_cases h : clusterMatch cluster_name asg = true
      · rw [find_asg_name, if_pos h, List.find?_cons_of_pos _ h]
        simp only [Option.map_some]
        split
        · rfl
        · split
          · rfl
          · rfl
      · rw [find_asg_name,
          if_neg (by simpa using h), List.find?_cons_of_neg _ (by simpa using h)]
        exact ih


/-- C9 counterexample: `asgExactNg` is cluster-matched and carries
`eks:nodegroup-name = web`, exactly the requested nodegroup, yet
resolution returns the earlier cluster-matched `asg-a` — there is no
preference pass over the full list. -/
theorem find_asg_counterexample :
    find_asg_name "c1" "web" [asgOtherNg, asgExactNg] = some "asg-a"
      ∧ clusterMatch "c1" asgExactNg = true
      ∧ tagGet asgExactNg.tags "eks:nodegroup-name" = "web"
      ∧ tagGet asgOtherNg.tags "eks:nodegroup-name" ≠ "web"
      ∧ "asg-a" ≠ "asg-b" := by
  refine ⟨?_, by decide, by decide, by decide, by decide⟩
  decide

/-- C9 amended: when `asg_name` is absent, resolution returns the FIRST
ASG in scan order that matches the cluster (via `eks:cluster-name` or a
`kubernetes.io/cluster/<name>` tag key), regardless of its
`eks:nodegroup-name` tag or name; it returns no result exactly when no
ASG in the list matches the cluster. -/
theorem find_asg_first_cluster_match (cluster_name nodegroup_name : String)
    (asgs : List AsgInfo) :
    find_asg_name cluster_name nodegroup_name asgs
      = (asgs.find? (clusterMatch cluster_name)).map AsgInfo.asgName
    ∧ (find_asg_name cluster_name nodegroup_name asgs = none ↔
        ∀ asg ∈ asgs, clusterMatch cluster_name asg = false) := by
  refine ⟨find_asg_name_eq_first_match cluster_name nodegroup_name asgs, ?_⟩
  rw [find_asg_name_eq_first_match cluster_name nodegroup_name asgs]
  simp [List.find?_eq_none]

/-- C10: `delete_baseline` never propagates a `ClientError` — the client
client error is caught and the function returns with the table as the
failed call left it; and in the worker start path a successful
`start_nodegroup` marks the row `COMPLETED` before the baseline delete,
so a failing delete cannot make the start report as failed. -/
theorem delete_baseline_swallows_errors :
    ∀ (tbl : BaselineTable) (cid ng e : String),
      baselineDeleteItem tbl cid ng (some e) = .error e
      ∧ delete_baseline tbl cid ng (some e) = tbl
      ∧ delete_baseline tbl cid ng none
          = tbl.filter (fun x => !(x.1 == (cid, ng)))
      ∧ ∀ (ngi : NgInfo) (deleteClientError : Option String),
          (startBranch tbl cid ngi (.ok ()) deleteClientError).1.status
            = "COMPLETED"
          ∧ (startBranch tbl cid ngi (.ok ()) deleteClientError).1.errorMessage
            = none :=
  fun _ _ _ _ => ⟨rfl, rfl, rfl, fun _ _ => ⟨rfl, rfl⟩⟩

end EksScheduler
